import Mathlib

/-
Verification of the configuration-repair feedback loop of the swebench
agents package: the error analyzer (`swebench/agents/utils/error_analyzer.py`),
the configuration model and its directive application
(`swebench/agents/models/config_model.py`), the configuration generator
(`swebench/agents/config_generator.py`), the dependency mapper's install
commands (`swebench/agents/utils/dependency_mapper.py`) and the validation
loop (`swebench/agents/docker_validator.py`, `_validation_loop`).

Python strings are modeled as Lean `String`; Python dicts that the code
mutates are modeled as insertion-ordered association lists; a fix dict is
`Option FixD` (with `none` standing for the empty dict `{}`, which is falsy
in the loop's `not analysis.get("suggested_fix")` check); log files on disk
are modeled by `LogFile` (missing / unreadable / readable content).
Diagnostic-only data that the loop never reads (the `log_snippets` lists and
the exact interpolated paths inside messages) is not modeled.
-/

set_option autoImplicit false

/-! ### String scanning utilities (model of the Python `in` operator and of
the specific regular expressions used by `ErrorAnalyzer`) -/

/-- Whitespace in the sense of Python's `\s` / `str.strip` (space, tab,
newline, carriage return, vertical tab, form feed). -/
def pyIsSpace (c : Char) : Bool :=
  c = Char.ofNat 32 || c = Char.ofNat 9 || c = Char.ofNat 10 ||
  c = Char.ofNat 13 || c = Char.ofNat 11 || c = Char.ofNat 12

/-- Does the second list start with the first one? -/
def beginsWith : List Char → List Char → Bool
  | [], _ => true
  | _ :: _, [] => false
  | a :: as, b :: bs => a == b && beginsWith as bs

/-- Does `needle` occur somewhere in the list (Python `needle in hay`)? -/
def subSearch (needle : List Char) : List Char → Bool
  | [] => needle.isEmpty
  | c :: cs => beginsWith needle (c :: cs) || subSearch needle cs

/-- Python `pat in s` for strings. -/
def strContains (s pat : String) : Bool :=
  subSearch pat.data s.data

/-- The current line: everything up to (excluding) the next newline. -/
def lineTail (l : List Char) : List Char :=
  l.takeWhile (fun c => c ≠ Char.ofNat 10)

/-- `re.search` of a pattern `first.*target` (with `.` not matching
newlines): is there a position where `first` matches, with `target`
occurring later on the same line? -/
def seqSearch (first target : List Char) : List Char → Bool
  | [] => false
  | c :: cs =>
    (beginsWith first (c :: cs) &&
      subSearch target (lineTail ((c :: cs).drop first.length)))
    || seqSearch first target cs

/-- String version of `seqSearch`. -/
def seqSearchStr (s first target : String) : Bool :=
  seqSearch first.data target.data s.data

/-- `re.search` of `lit(.+)`: is there a position where `lit` matches
followed by at least one non-newline character? -/
def litThenNonNl (lit : List Char) : List Char → Bool
  | [] => false
  | c :: cs =>
    (beginsWith lit (c :: cs) &&
      (match (c :: cs).drop lit.length with
       | [] => false
       | d :: _ => d ≠ Char.ofNat 10))
    || litThenNonNl lit cs

/-- `re.search` of `lit(\S+)`: at the first position where `lit` matches and
is followed by at least one non-whitespace character, capture the maximal
run of non-whitespace characters. -/
def capSearch (lit : List Char) : List Char → Option (List Char)
  | [] => none
  | c :: cs =>
    if beginsWith lit (c :: cs) then
      let cap := (((c :: cs).drop lit.length).takeWhile (fun ch => ! pyIsSpace ch))
      if cap.isEmpty then capSearch lit cs else some cap
    else capSearch lit cs

/-- The single-quote character, written via its code point. -/
def quoteChar : Char := Char.ofNat 39

/-- `re.search` of `lit1([^q]+)q` where `q` is the quote character: at the
first position where the literal matches, capture the maximal run of
non-quote characters, provided it is non-empty and followed by a closing
quote. -/
def quoteCapSearch (lit : List Char) : List Char → Option (List Char)
  | [] => none
  | c :: cs =>
    if beginsWith lit (c :: cs) then
      let rest := (c :: cs).drop lit.length
      let cap := rest.takeWhile (fun ch => ch ≠ quoteChar)
      if cap.isEmpty = false && (rest.drop cap.length).head? = some quoteChar then
        some cap
      else quoteCapSearch lit cs
    else quoteCapSearch lit cs

/-- Python `str.strip()`: remove leading and trailing whitespace. -/
def pyStrip (s : String) : String :=
  String.mk ((((s.data.dropWhile pyIsSpace).reverse).dropWhile pyIsSpace).reverse)

/-! ### Data model: fix directives and analysis results -/

/-- A Python value carried in a fix dict's `value` slot: a string, an
integer, or `None` (which is also what `dict.get` returns for an absent
key). -/
inductive PyVal where
  | pstr (s : String)
  | pnat (n : Nat)
  | pnone
  deriving DecidableEq, Repr

/-- A populated fix dict, as produced by `ErrorAnalyzer`: `fix_type`,
optional `field`, optional `value`, and `reason`.  The empty dict `{}` is
represented as `none` at type `Option FixD`. -/
structure FixD where
  fix_type : String
  field : Option String
  value : PyVal
  reason : String
  deriving DecidableEq, Repr

/-- An analysis result: `error_type` (`none` on success), `error_message`,
and `suggested_fix` (`none` for the empty dict).  The diagnostic
`log_snippets` list is never read by the loop and is not modeled. -/
structure Analysis where
  error_type : Option String
  error_message : String
  suggested_fix : Option FixD
  deriving DecidableEq, Repr

/-- A log artifact on disk: missing, unreadable (with the exception text),
or readable with its content. -/
inductive LogFile where
  | missing
  | unreadable (e : String)
  | readable (content : String)
  deriving DecidableEq, Repr

/-- `Path.exists()` for a log artifact. -/
def LogFile.present : LogFile → Bool
  | .missing => false
  | _ => true

/-! ### Error analyzer: pattern predicates

Dict iteration order in Python 3.7+ is insertion order, so the pattern
dictionaries are scanned in their source order; the first match wins. -/

/-- `BUILD_ERROR_PATTERNS["missing_package"]`:
`E: Unable to locate package (\S+)`. -/
def missingPackageCapture (content : String) : Option String :=
  (capSearch "E: Unable to locate package ".data content.data).map String.mk

/-- `BUILD_ERROR_PATTERNS["node_not_found"]`:
`node: (not found|command not found)`. -/
def nodeNotFoundMatch (c : String) : Bool :=
  strContains c "node: not found" || strContains c "node: command not found"

/-- `BUILD_ERROR_PATTERNS["npm_not_found"]`:
`npm: (not found|command not found)`. -/
def npmNotFoundMatch (c : String) : Bool :=
  strContains c "npm: not found" || strContains c "npm: command not found"

/-- `BUILD_ERROR_PATTERNS["permission_denied"]`:
`(EACCES|Permission denied)`. -/
def permissionDeniedMatch (c : String) : Bool :=
  strContains c "EACCES" || strContains c "Permission denied"

/-- `BUILD_ERROR_PATTERNS["network_timeout"]`:
`(network timeout|ETIMEDOUT|ECONNREFUSED)`. -/
def networkTimeoutMatch (c : String) : Bool :=
  strContains c "network timeout" || strContains c "ETIMEDOUT" ||
  strContains c "ECONNREFUSED"

/-- `INSTALL_ERROR_PATTERNS["missing_module"]`:
`Cannot find module '([^']+)'`, the quotes written via `quoteChar`. -/
def moduleCapSearch (content : String) : Option String :=
  (quoteCapSearch ("Cannot find module ".data ++ [quoteChar]) content.data).map String.mk

/-- `INSTALL_ERROR_PATTERNS["npm_error"]`: `npm ERR! (.+)`. -/
def npmErrMatch (c : String) : Bool :=
  litThenNonNl "npm ERR! ".data c.data

/-- `TEST_ERROR_PATTERNS["timeout"]`: `Timeout (error|exceeded)`. -/
def timeoutMatch (c : String) : Bool :=
  strContains c "Timeout error" || strContains c "Timeout exceeded"

/-- `TEST_ERROR_PATTERNS["chromium_missing"]`:
`(Chromium|Chrome).*not found`. -/
def chromiumMatch (c : String) : Bool :=
  seqSearchStr c "Chromium" "not found" || seqSearchStr c "Chrome" "not found"

/-- `TEST_ERROR_PATTERNS["display_error"]`: `(DISPLAY|X11|xvfb)`. -/
def displayMatch (c : String) : Bool :=
  strContains c "DISPLAY" || strContains c "X11" || strContains c "xvfb"

/-- The install-failure marker checked at the top of `analyze_test_output`. -/
def installFailMarker (c : String) : Bool :=
  strContains c ">>>>> Init Failed" || strContains c "INSTALL_FAIL"

/-- The test-runner output markers whose presence counts as success in
`analyze_test_output`. -/
def testRanMarker (c : String) : Bool :=
  strContains c "npm test" || strContains c "jest" || strContains c "mocha" ||
  strContains c "vitest" || strContains c "Test Suites"

/-! ### Error analyzer: the analysis functions -/

/-- The fix suggested for `node_not_found` / `npm_not_found` build errors. -/
def changeNodeFix : FixD :=
  ⟨"change_version", some "node_version", PyVal.pstr "18", "Fallback to stable Node version"⟩

/-- The fix suggested for `network_timeout` build errors (no `field` or
`value` keys in the source dict). -/
def retryFix : FixD :=
  ⟨"retry", none, PyVal.pnone, "Transient network error"⟩

/-- The fix suggested for run-log timeouts. -/
def increaseTimeoutFix : FixD :=
  ⟨"increase_timeout", some "timeout", PyVal.pnat 600, "Tests taking longer than expected"⟩

/-- An analysis whose fields are all empty/None (success). -/
def emptyAnalysis : Analysis := ⟨none, "", none⟩

/-- The ordered scan over `BUILD_ERROR_PATTERNS` in `analyze_build_log`:
`missing_package`, `node_not_found`, `npm_not_found`, `permission_denied`,
`network_timeout`; the first match sets `error_type` and, for the kinds that
have a branch, the message and suggested fix (`permission_denied` has no
branch, so only `error_type` is set). -/
def buildErrorScan (content : String) : Analysis :=
  match missingPackageCapture content with
  | some pkg =>
    ⟨some "missing_package", "Missing system package: " ++ pkg,
      some ⟨"remove_apt_package", some "apt_pkgs", PyVal.pstr pkg,
            "Package not found in apt repositories"⟩⟩
  | none =>
    if nodeNotFoundMatch content then
      ⟨some "node_not_found", "Node.js installation failed", some changeNodeFix⟩
    else if npmNotFoundMatch content then
      ⟨some "npm_not_found", "Node.js installation failed", some changeNodeFix⟩
    else if permissionDeniedMatch content then
      ⟨some "permission_denied", "", none⟩
    else if networkTimeoutMatch content then
      ⟨some "network_timeout", "Network timeout during build", some retryFix⟩
    else
      ⟨none, "", none⟩

/-- `ErrorAnalyzer.analyze_build_log`.  Missing/unreadable artifacts give
terminal classifications; a log containing the success marker gives
`error_type = None`; otherwise the ordered pattern scan runs, and a log with
the generic failure marker but no specific pattern is classified
`build_failure_generic` with no fix. -/
def analyzeBuildLog : LogFile → Analysis
  | .missing => ⟨some "log_not_found", "Build log not found", none⟩
  | .unreadable e => ⟨some "log_read_error", "Failed to read log: " ++ e, none⟩
  | .readable content =>
    if strContains content "Image built successfully" then emptyAnalysis
    else
      let a := buildErrorScan content
      if strContains content "Error building image" && a.error_type.isNone then
        ⟨some "build_failure_generic", "Docker build failed (unknown cause)", none⟩
      else a

/-- The ordered scan over `INSTALL_ERROR_PATTERNS` run inside the
install-failure branch of `analyze_test_output`: `missing_module`,
`npm_error`, `version_conflict`, `missing_python`, `gyp_error`,
`missing_binary`.  The first match breaks out of the loop; only the kinds
with an `if` branch set a message and fix (`npm_error` and `missing_binary`
break without setting anything), and `error_type` is left untouched (it
stays `install_failure`). -/
def installErrorScan (content : String) : String × Option FixD :=
  match moduleCapSearch content with
  | some m =>
    ("Missing module: " ++ m,
      some ⟨"add_command", some "install", PyVal.pstr ("npm install " ++ m),
            "Module " ++ m ++ " not found"⟩)
  | none =>
    if npmErrMatch content then ("", none)
    else if strContains content "ERESOLVE unable to resolve dependency tree" then
      ("Dependency version conflict",
        some ⟨"add_npm_flag", some "install", PyVal.pstr "--legacy-peer-deps",
              "Resolve peer dependency conflicts"⟩)
    else if seqSearchStr content "python" "not found" then
      ("Python not found (needed for native modules)",
        some ⟨"add_apt_package", some "apt_pkgs", PyVal.pstr "python3",
              "Required for node-gyp"⟩)
    else if strContains content "gyp ERR!" then
      ("node-gyp compilation error",
        some ⟨"add_apt_package", some "apt_pkgs", PyVal.pstr "build-essential",
              "Required for native module compilation"⟩)
    else ("", none)

/-- The trailing scan over `TEST_ERROR_PATTERNS` in `analyze_test_output`
(`timeout`, `chromium_missing`, `display_error`), applied to whatever
analysis the earlier branches produced.  A `timeout` match overwrites only
`error_type`; the other two overwrite message and fix as well. -/
def applyTestScan (content : String) (a : Analysis) : Analysis :=
  if timeoutMatch content then { a with error_type := some "timeout" }
  else if chromiumMatch content then
    ⟨some "chromium_missing", "Chromium browser not found",
      some ⟨"add_apt_package", some "apt_pkgs", PyVal.pstr "chromium",
            "Required for browser tests"⟩⟩
  else if displayMatch content then
    ⟨some "display_error", "Display/X11 error",
      some ⟨"add_apt_package", some "apt_pkgs", PyVal.pstr "xvfb",
            "Required for headless browser tests"⟩⟩
  else a

/-- `ErrorAnalyzer.analyze_test_output`.  An install-failure marker routes
through the install-error signatures; otherwise the presence of any
test-runner output marker returns success immediately; in both the
install-failure case and the no-marker case the test-error patterns are
scanned last.  A log with no markers and no matching pattern yields
`error_type = None`. -/
def analyzeTestOutput : LogFile → Analysis
  | .missing => ⟨some "log_not_found", "Test output not found", none⟩
  | .unreadable e => ⟨some "log_read_error", "Failed to read log: " ++ e, none⟩
  | .readable content =>
    if installFailMarker content then
      applyTestScan content
        ⟨some "install_failure", (installErrorScan content).1, (installErrorScan content).2⟩
    else if testRanMarker content then emptyAnalysis
    else applyTestScan content emptyAnalysis

/-- `ErrorAnalyzer.analyze_run_log`.  A missing run log yields
`error_type = None` (unlike the other two analyzers); only the literal
`Timeout error` is recognized. -/
def analyzeRunLog : LogFile → Analysis
  | .missing => emptyAnalysis
  | .unreadable e => ⟨some "log_read_error", "Failed to read log: " ++ e, none⟩
  | .readable content =>
    if strContains content "Timeout error" then
      ⟨some "timeout", "Test execution timed out", some increaseTimeoutFix⟩
    else emptyAnalysis

/-- The log directory consulted by `ErrorAnalyzer.analyze_logs`:
`buildLink` models `image_build_dir` existing and being a symlink,
`buildLog` the `build_image.log` behind it, `testOut` `test_output.txt`,
and `runLog` `run_instance.log`. -/
structure LogDir where
  buildLink : Bool
  buildLog : LogFile
  testOut : LogFile
  runLog : LogFile
  deriving DecidableEq, Repr

/-- `ErrorAnalyzer.analyze_logs`: consolidated analysis.  The build log (if
behind an existing symlink) is decisive when it reports an error; a present
test output is decisive either way (an error is returned, otherwise success
is returned without consulting the run log); the run log is consulted last;
if nothing is present or decisive the empty (success) analysis is
returned. -/
def analyzeLogs (d : LogDir) : Analysis :=
  let buildStep : Option Analysis :=
    if d.buildLink && d.buildLog.present then
      let a := analyzeBuildLog d.buildLog
      if a.error_type.isSome then some a else none
    else none
  match buildStep with
  | some a => a
  | none =>
    if d.testOut.present then
      let a := analyzeTestOutput d.testOut
      if a.error_type.isSome then a else emptyAnalysis
    else if d.runLog.present then
      let a := analyzeRunLog d.runLog
      if a.error_type.isSome then a else emptyAnalysis
    else emptyAnalysis

/-! ### Configuration model and directive application -/

/-- First-match lookup in an insertion-ordered association list (Python
`d[k]` read). -/
def dictLookup (d : List (String × PyVal)) (k : String) : Option PyVal :=
  match d with
  | [] => none
  | (k₁, v₁) :: rest => if k₁ = k then some v₁ else dictLookup rest k

/-- Python `d[k] = v` on an insertion-ordered dict: overwrite the entry in
place if the key exists, otherwise append it. -/
def dictInsert (d : List (String × PyVal)) (k : String) (v : PyVal) :
    List (String × PyVal) :=
  match d with
  | [] => [(k, v)]
  | (k₁, v₁) :: rest =>
    if k₁ = k then (k, v) :: rest else (k₁, v₁) :: dictInsert rest k v

/-- `ConfigModel`: the structured Docker configuration under repair.
`docker_specs` is an insertion-ordered dict; `env_vars` is a string dict
that no directive touches.  String-typed containers (`install`, `apt_pkgs`)
are `List String` — every fix the analyzer emits for them carries a string
payload. -/
structure ConfigModel where
  repo : String
  version : String
  install : List String
  test_cmd : String
  build : Option (List String)
  docker_specs : List (String × PyVal)
  apt_pkgs : List String
  env_vars : List (String × String)
  deriving DecidableEq, Repr

/-- `ConfigModel.update_from_fix`: apply a fix dict to the model.  The
branches mirror the source's `if`/`elif` chain on `fix_type`; an
unrecognized `fix_type` (including `retry` and `increase_timeout`) falls
through with no effect.  Branches that store a payload into a string-typed
field act only when the payload is a string, which is the only payload kind
the analyzer emits for them. -/
def updateFromFix (m : ConfigModel) (fix : Option FixD) : ConfigModel :=
  match fix with
  | none => m
  | some f =>
    if f.fix_type = "add_apt_package" then
      match f.value with
      | PyVal.pstr v =>
        if v ∈ m.apt_pkgs then m else { m with apt_pkgs := m.apt_pkgs ++ [v] }
      | _ => m
    else if f.fix_type = "remove_apt_package" then
      match f.value with
      | PyVal.pstr v =>
        if v ∈ m.apt_pkgs then { m with apt_pkgs := m.apt_pkgs.erase v } else m
      | _ => m
    else if f.fix_type = "change_version" then
      if f.field = some "node_version" then
        { m with docker_specs := dictInsert m.docker_specs "node_version" f.value }
      else if f.field = some "pnpm_version" then
        { m with docker_specs := dictInsert m.docker_specs "pnpm_version" f.value }
      else m
    else if f.fix_type = "add_command" then
      if f.field = some "install" then
        match f.value with
        | PyVal.pstr v =>
          if v ∈ m.install then m else { m with install := m.install ++ [v] }
        | _ => m
      else if f.field = some "build" then
        match f.value with
        | PyVal.pstr v =>
          if v ∈ m.build.getD [] then { m with build := some (m.build.getD []) }
          else { m with build := some (m.build.getD [] ++ [v]) }
        | _ => m
      else m
    else if f.fix_type = "modify_test_cmd" then
      match f.value with
      | PyVal.pstr v => { m with test_cmd := v }
      | _ => m
    else if f.fix_type = "add_npm_flag" then
      match f.value with
      | PyVal.pstr v =>
        { m with install := m.install.map (fun cmd =>
            if strContains cmd "npm install" && !(strContains cmd v) then
              cmd ++ " " ++ v
            else cmd) }
      | _ => m
    else m

/-! ### Repository descriptor and configuration generation -/

/-- The fields of `RepoModel` read by the configuration generator (metadata
fields the generator never reads are omitted). -/
structure RepoModel where
  repo : String
  package_manager : String
  install_command : List String
  build_command : Option String
  test_command : String
  system_deps : List String
  env_vars : List (String × String)
  node_version : String
  has_build_step : Bool
  deriving DecidableEq, Repr

/-- `DependencyMapper.get_install_command`: the canonical install invocation
per package manager, with optional flags joined by spaces and the result
stripped. -/
def getInstallCommand (package_manager : String) (flags : List String) :
    List String :=
  let flag_str := String.intercalate " " flags
  if package_manager = "npm" then [pyStrip ("npm install " ++ flag_str)]
  else if package_manager = "yarn" then [pyStrip ("yarn install " ++ flag_str)]
  else if package_manager = "pnpm" then [pyStrip ("pnpm install " ++ flag_str)]
  else ["npm install"]

/-- `ConfigGeneratorAgent._generate_install_commands`: the descriptor's
first install command, or the literal `npm install` when the descriptor
supplies none; all three package-manager branches append exactly that base
command. -/
def generateInstallCommands (rm : RepoModel) : List String :=
  let base_cmd := match rm.install_command with
    | [] => "npm install"
    | c :: _ => c
  if rm.package_manager = "pnpm" then [base_cmd]
  else if rm.package_manager = "yarn" then [base_cmd]
  else [base_cmd]

/-- `ConfigGeneratorAgent._generate_build_commands`. -/
def generateBuildCommands (rm : RepoModel) : Option (List String) :=
  if !rm.has_build_step then none
  else match rm.build_command with
    | none => none
    | some c => some [c]

/-- `ConfigGeneratorAgent._generate_docker_specs`. -/
def generateDockerSpecs (rm : RepoModel) : List (String × PyVal) :=
  [("node_version", PyVal.pstr rm.node_version), ("_variant", PyVal.pstr "js_2")]
    ++ (if rm.package_manager = "pnpm" then [("pnpm_version", PyVal.pstr "9.5.0")] else [])

/-- `ConfigGeneratorAgent._generate_config` (the `version` comes from the
agent state). -/
def generateConfig (rm : RepoModel) (version : String) : ConfigModel :=
  { repo := rm.repo
    version := version
    install := generateInstallCommands rm
    test_cmd := rm.test_command
    build := generateBuildCommands rm
    docker_specs := generateDockerSpecs rm
    apt_pkgs := rm.system_deps
    env_vars := rm.env_vars }

/-! ### Validation loop -/

/-- Terminal states of a loop run: success, stop because no fix was
suggested, stop because writing the configuration failed, or iteration
budget exhausted. -/
inductive Outcome where
  | success
  | noFix
  | writeFail
  | exhausted
  deriving DecidableEq, Repr

/-- One iteration's view of the external world: whether writing the
configuration artifacts succeeds, whether the Docker build succeeds, the
build log consulted on build failure, and the run-log directory consulted
after a completed build. -/
structure IterWorld where
  writeOk : Bool
  buildOk : Bool
  buildLog : LogFile
  logDir : LogDir
  deriving DecidableEq, Repr

/-- The analysis the loop performs at an iteration: the build-log analysis
when the build failed, the consolidated log analysis otherwise. -/
def iterAnalysis (w : IterWorld) : Analysis :=
  if w.buildOk then analyzeLogs w.logDir else analyzeBuildLog w.buildLog

/-- Result of `_validation_loop`: the returned `(success, final_config,
iteration_logs)` triple, plus two observations of the run that the source
exposes only through its control flow: the chronological list of
configurations that were persisted and then submitted to a build attempt,
and the terminal state. -/
structure LoopResult where
  success : Bool
  config : ConfigModel
  logs : List String
  attempted : List ConfigModel
  outcome : Outcome
  deriving DecidableEq, Repr

/-- `DockerValidatorAgent._validation_loop`, iteration by iteration.
`rem` is the remaining budget, `i` the 1-based iteration number.  Each
iteration: persist the configuration (failure aborts the run), build
(failure routes through `analyze_build_log`: no suggested fix aborts,
otherwise the fix is applied and the loop continues), then run and analyze
the consolidated logs (`error_type = None` is success; otherwise no
suggested fix aborts, and an available fix is applied before continuing).
Exhausting the budget returns failure with the mutated configuration. -/
def loopGo (env : Nat → IterWorld) : Nat → Nat → ConfigModel → List String → LoopResult
  | 0, _, cfg, logs =>
    ⟨false, cfg, logs ++ ["Max iterations reached"], [], Outcome.exhausted⟩
  | rem + 1, i, cfg, logs =>
    if (env i).writeOk then
      if (env i).buildOk then
        if (analyzeLogs (env i).logDir).error_type.isNone then
          ⟨true, cfg, logs ++ ["Iteration " ++ toString i ++ ": Success!"],
            [cfg], Outcome.success⟩
        else
          match (analyzeLogs (env i).logDir).suggested_fix with
          | none =>
            ⟨false, cfg,
              logs ++ ["Iteration " ++ toString i ++ ": " ++
                ((analyzeLogs (env i).logDir).error_type.getD "None") ++ ": " ++
                (analyzeLogs (env i).logDir).error_message],
              [cfg], Outcome.noFix⟩
          | some fix =>
            let r := loopGo env rem (i + 1) (updateFromFix cfg (some fix))
              (logs ++ ["Iteration " ++ toString i ++ ": " ++
                ((analyzeLogs (env i).logDir).error_type.getD "None") ++ ": " ++
                (analyzeLogs (env i).logDir).error_message])
            { r with attempted := cfg :: r.attempted }
      else
        match (analyzeBuildLog (env i).buildLog).suggested_fix with
        | none =>
          ⟨false, cfg,
            logs ++ ["Iteration " ++ toString i ++ ": Build failed",
              "Iteration " ++ toString i ++ ": No fix suggested for build failure: " ++
              (analyzeBuildLog (env i).buildLog).error_message],
            [cfg], Outcome.noFix⟩
        | some fix =>
          let r := loopGo env rem (i + 1) (updateFromFix cfg (some fix))
            (logs ++ ["Iteration " ++ toString i ++ ": Build failed"])
          { r with attempted := cfg :: r.attempted }
    else
      ⟨false, cfg,
        logs ++ ["Iteration " ++ toString i ++ ": Failed to write config files"],
        [], Outcome.writeFail⟩

/-- `_validation_loop` entry point: iterations start at 1 with an empty
iteration log. -/
def validationLoop (env : Nat → IterWorld) (maxIterations : Nat)
    (cfg : ConfigModel) : LoopResult :=
  loopGo env maxIterations 1 cfg []

/-! ### Spec-side definitions used for refinement comparison -/

/-- The configured package manager's canonical install invocation, as the
source's `DependencyMapper.get_install_command` defines it (no flags). -/
def canonicalInstallInvocation (package_manager : String) : String :=
  (getInstallCommand package_manager []).headD "npm install"

/-- Modelled from the spec's wording of `add_npm_flag` (§4.3): append
`value` as a flag to every install command containing the *configured
package manager's* install invocation, unless already present.  Compared
against `updateFromFix`, which hard-codes the `npm install` invocation. -/
def specNpmFlagApply (package_manager : String) (install : List String)
    (v : String) : List String :=
  install.map (fun cmd =>
    if strContains cmd (canonicalInstallInvocation package_manager) &&
        !(strContains cmd v) then
      cmd ++ " " ++ v
    else cmd)

/-! ### Concrete fixtures used by counterexamples and witnesses -/

/-- A small configuration in the shape the generator produces. -/
def cfgBase : ConfigModel :=
  ⟨"octo/fixture", "1.0", ["npm install"], "npm test", none,
   [("node_version", PyVal.pstr "20"), ("_variant", PyVal.pstr "js_2")],
   ["git"], []⟩

/-- The same configuration for a yarn repository: its single install
command is yarn's invocation. -/
def cfgYarn : ConfigModel := { cfgBase with install := ["yarn install"] }

/-- A configuration with one npm install command and one unrelated
command. -/
def cfgTwo : ConfigModel := { cfgBase with install := ["npm install", "echo hi"] }

/-- A log directory whose test output exists but contains no recognized
marker or signature at all. -/
def dirQuiet : LogDir :=
  ⟨false, LogFile.missing, LogFile.readable "all quiet", LogFile.missing⟩

/-- A log directory whose test output matches the display-error signature
(which has a suggested fix), so every iteration classifies a failure and
retries. -/
def dirDisplay : LogDir :=
  ⟨false, LogFile.missing, LogFile.readable "DISPLAY missing", LogFile.missing⟩

/-- Environment in which every build completes and the logs show no
failure. -/
def envSuccess : Nat → IterWorld :=
  fun _ => ⟨true, true, LogFile.missing, dirQuiet⟩

/-- Environment in which every iteration fails the same way with the same
suggested fix (oscillation). -/
def envOscillate : Nat → IterWorld :=
  fun _ => ⟨true, true, LogFile.missing, dirDisplay⟩

/-- Environment in which every Docker build fails with a fixable
`node_not_found` signature. -/
def envNodeFail : Nat → IterWorld :=
  fun _ => ⟨true, false, LogFile.readable "node: not found", dirQuiet⟩

/-- A build log exhibiting both the missing-package signature and the
generic failure marker. -/
def c6content : String :=
  "E: Unable to locate package libfoo-dev\nError building image"

/-- A pnpm repository descriptor whose ingestion supplied no install
command. -/
def rmPnpm : RepoModel :=
  ⟨"octo/fixture", "pnpm", [], none, "npm test", [], [], "20", false⟩

/-! ### Helper lemmas -/

lemma getLast?_cons_of_some {α : Type} {l : List α} {a x : α}
    (h : l.getLast? = some x) : (a :: l).getLast? = some x := by
  cases l with
  | nil => simp at h
  | cons b t => rw [List.getLast?_cons_cons]; exact h

lemma dictInsert_idem (d : List (String × PyVal)) (k : String) (v : PyVal) :
    dictInsert (dictInsert d k v) k v = dictInsert d k v := by
  induction d with
  | nil => simp [dictInsert]
  | cons hd tl ih =>
    obtain ⟨k₁, v₁⟩ := hd
    by_cases h : k₁ = k
    · simp [dictInsert, h]
    · simp [dictInsert, h, ih]

lemma dictLookup_dictInsert (d : List (String × PyVal)) (k : String) (v : PyVal) :
    dictLookup (dictInsert d k v) k = some v := by
  induction d with
  | nil => simp [dictInsert, dictLookup]
  | cons hd tl ih =>
    obtain ⟨k₁, v₁⟩ := hd
    by_cases h : k₁ = k
    · simp [dictInsert, h, dictLookup]
    · simp [dictInsert, h, dictLookup, ih]

lemma loopGo_attempted_length (env : Nat → IterWorld) :
    ∀ rem i cfg logs, (loopGo env rem i cfg logs).attempted.length ≤ rem := by
  intro rem
  induction rem with
  | zero => intro i cfg logs; simp [loopGo]
  | succ n ih =>
    intro i cfg logs
    by_cases hw : (env i).writeOk
    · by_cases hb : (env i).buildOk
      · by_cases he : (analyzeLogs (env i).logDir).error_type.isNone
        · simp [loopGo, hw, hb, he]
        · cases hfix : (analyzeLogs (env i).logDir).suggested_fix with
          | none => simp [loopGo, hw, hb, he, hfix]
          | some fix =>
            simp only [loopGo, hw, hb, he, hfix, if_true, if_false]
            simp only [Bool.false_eq_true, if_false]
            exact Nat.succ_le_succ (ih _ _ _)
      · cases hfix : (analyzeBuildLog (env i).buildLog).suggested_fix with
        | none => simp [loopGo, hw, hb, hfix]
        | some fix =>
          simp only [loopGo, hw, hb, hfix, if_true, if_false]
          simp only [Bool.false_eq_true, if_false]
          exact Nat.succ_le_succ (ih _ _ _)
    · simp [loopGo, hw]

lemma loopGo_no_success (env : Nat → IterWorld)
    (h : ∀ j, (analyzeLogs (env j).logDir).error_type ≠ none) :
    ∀ rem i cfg logs, (loopGo env rem i cfg logs).success = false := by
  intro rem
  induction rem with
  | zero => intro i cfg logs; simp [loopGo]
  | succ n ih =>
    intro i cfg logs
    by_cases hw : (env i).writeOk
    · by_cases hb : (env i).buildOk
      · have he : (analyzeLogs (env i).logDir).error_type.isNone = false := by
          cases hee : (analyzeLogs (env i).logDir).error_type with
          | none => exact absurd hee (h i)
          | some t => simp
        cases hfix : (analyzeLogs (env i).logDir).suggested_fix with
        | none => simp [loopGo, hw, hb, he, hfix]
        | some fix =>
          simp only [loopGo, hw, hb, he, hfix, if_true, if_false]
          simp only [Bool.false_eq_true, if_false]
          exact ih _ _ _
      · cases hfix : (analyzeBuildLog (env i).buildLog).suggested_fix with
        | none => simp [loopGo, hw, hb, hfix]
        | some fix =>
          simp only [loopGo, hw, hb, hfix, if_true, if_false]
          simp only [Bool.false_eq_true, if_false]
          exact ih _ _ _
    · simp [loopGo, hw]

lemma loopGo_success_step (env : Nat → IterWorld) :
    ∀ rem i cfg logs, 1 ≤ rem → (env i).writeOk = true → (env i).buildOk = true →
      (analyzeLogs (env i).logDir).error_type = none →
      (loopGo env rem i cfg logs).success = true ∧
      (loopGo env rem i cfg logs).config = cfg ∧
      (loopGo env rem i cfg logs).attempted = [cfg] := by
  intro rem i cfg logs hrem hw hb he
  match rem, hrem with
  | n + 1, _ => simp [loopGo, hw, hb, he]

lemma loopGo_last_attempt (env : Nat → IterWorld) :
    ∀ rem i cfg logs,
      ((loopGo env rem i cfg logs).outcome = Outcome.success ∨
        (loopGo env rem i cfg logs).outcome = Outcome.noFix) →
      (loopGo env rem i cfg logs).attempted.getLast? =
        some (loopGo env rem i cfg logs).config := by
  intro rem
  induction rem with
  | zero => intro i cfg logs hout; simp [loopGo] at hout
  | succ n ih =>
    intro i cfg logs hout
    by_cases hw : (env i).writeOk
    · by_cases hb : (env i).buildOk
      · by_cases he : (analyzeLogs (env i).logDir).error_type.isNone
        · simp [loopGo, hw, hb, he]
        · cases hfix : (analyzeLogs (env i).logDir).suggested_fix with
          | none => simp [loopGo, hw, hb, he, hfix]
          | some fix =>
            simp only [loopGo, hw, hb, he, hfix, if_true, if_false] at hout ⊢
            simp only [Bool.false_eq_true, if_false] at hout ⊢
            exact getLast?_cons_of_some (ih _ _ _ hout)
      · cases hfix : (analyzeBuildLog (env i).buildLog).suggested_fix with
        | none => simp [loopGo, hw, hb, hfix]
        | some fix =>
          simp only [loopGo, hw, hb, hfix, if_true, if_false] at hout ⊢
          simp only [Bool.false_eq_true, if_false] at hout ⊢
          exact getLast?_cons_of_some (ih _ _ _ hout)
    · simp [loopGo, hw] at hout

lemma loopGo_exhausted_char (env : Nat → IterWorld) :
    ∀ rem i cfg logs, 1 ≤ rem →
      (loopGo env rem i cfg logs).outcome = Outcome.exhausted →
      ∃ last, (loopGo env rem i cfg logs).attempted.getLast? = some last ∧
        (loopGo env rem i cfg logs).config =
          updateFromFix last (iterAnalysis (env (i + rem - 1))).suggested_fix := by
  intro rem
  induction rem with
  | zero => intro i cfg logs hrem hout; omega
  | succ n ih =>
    intro i cfg logs hrem hout
    by_cases hw : (env i).writeOk
    · by_cases hb : (env i).buildOk
      · by_cases he : (analyzeLogs (env i).logDir).error_type.isNone
        · simp [loopGo, hw, hb, he] at hout
        · cases hfix : (analyzeLogs (env i).logDir).suggested_fix with
          | none => simp [loopGo, hw, hb, he, hfix] at hout
          | some fix =>
            cases n with
            | zero =>
              refine ⟨cfg, ?_, ?_⟩
              · simp [loopGo, hw, hb, he, hfix]
              · have hidx : i + 1 - 1 = i := by omega
                simp [loopGo, hw, hb, he, hfix, hidx, iterAnalysis]
            | succ k =>
              have hrec := ih (i + 1) (updateFromFix cfg (some fix))
                (logs ++ ["Iteration " ++ toString i ++ ": " ++
                  ((analyzeLogs (env i).logDir).error_type.getD "None") ++ ": " ++
                  (analyzeLogs (env i).logDir).error_message]) (by omega) ?hout2
              case hout2 =>
                simp only [loopGo, hw, hb, he, hfix, if_true, if_false] at hout
                simp only [Bool.false_eq_true, if_false] at hout
                exact hout
              obtain ⟨last, h₁, h₂⟩ := hrec
              refine ⟨last, ?_, ?_⟩
              · simp only [loopGo, hw, hb, he, hfix, if_true, if_false]
                simp only [Bool.false_eq_true, if_false]
                exact getLast?_cons_of_some h₁
              · have hidx : i + 1 + (k + 1) - 1 = i + (k + 1 + 1) - 1 := by omega
                simp only [loopGo, hw, hb, he, hfix, if_true, if_false]
                simp only [Bool.false_eq_true, if_false]
                rw [← hidx]
                exact h₂
      · cases hfix : (analyzeBuildLog (env i).buildLog).suggested_fix with
        | none => simp [loopGo, hw, hb, hfix] at hout
        | some fix =>
          cases n with
          | zero =>
            refine ⟨cfg, ?_, ?_⟩
            · simp [loopGo, hw, hb, hfix]
            · have hidx : i + 1 - 1 = i := by omega
              simp [loopGo, hw, hb, hfix, hidx, iterAnalysis]
          | succ k =>
            have hrec := ih (i + 1) (updateFromFix cfg (some fix))
              (logs ++ ["Iteration " ++ toString i ++ ": Build failed"]) (by omega) ?hout3
            case hout3 =>
              simp only [loopGo, hw, hb, hfix, if_true, if_false] at hout
              simp only [Bool.false_eq_true, if_false] at hout
              exact hout
            obtain ⟨last, h₁, h₂⟩ := hrec
            refine ⟨last, ?_, ?_⟩
            · simp only [loopGo, hw, hb, hfix, if_true, if_false]
              simp only [Bool.false_eq_true, if_false]
              exact getLast?_cons_of_some h₁
            · have hidx : i + 1 + (k + 1) - 1 = i + (k + 1 + 1) - 1 := by omega
              simp only [loopGo, hw, hb, hfix, if_true, if_false]
              simp only [Bool.false_eq_true, if_false]
              rw [← hidx]
              exact h₂
    · simp [loopGo, hw] at hout

/-! ### Claim C1 -/

/-- Claim C1, counterexample.  The claim says a test-phase log with no
known signature, no generic failure marker and no success marker yields a
generic error classification with no fix and the loop reports UNRECOVERABLE
on iteration 1 of a budget of 5.  In the code, `analyze_test_output` leaves
`error_type = None` on such a log, the consolidated analysis treats that as
success, and the loop reports SUCCESS on iteration 1. -/
theorem c1_counterexample :
    (analyzeTestOutput (LogFile.readable "all quiet")).error_type = none ∧
    (analyzeLogs dirQuiet).error_type = none ∧
    (validationLoop envSuccess 5 cfgBase).success = true ∧
    (validationLoop envSuccess 5 cfgBase).attempted = [cfgBase] := by decide

/-- Claim C1, amended.  For a test-phase log artifact whose content
contains no install-failure marker, no test-runner success marker, and
matches none of the test-error signatures, `analyze_test_output` returns
`error_type = None`; the consolidated analysis therefore reports no error,
and the validation loop reports SUCCESS immediately on iteration 1 of any
budget of at least 1, with exactly one build attempt. -/
theorem c1_unknown_test_log (content : String) (bl rl : LogFile)
    (cfg : ConfigModel) (N : Nat) (hN : 1 ≤ N)
    (h₁ : installFailMarker content = false)
    (h₂ : testRanMarker content = false)
    (h₃ : timeoutMatch content = false)
    (h₄ : chromiumMatch content = false)
    (h₅ : displayMatch content = false) :
    (analyzeTestOutput (LogFile.readable content)).error_type = none ∧
    (analyzeLogs ⟨false, bl, LogFile.readable content, rl⟩).error_type = none ∧
    (validationLoop
        (fun _ => ⟨true, true, bl, ⟨false, bl, LogFile.readable content, rl⟩⟩)
        N cfg).success = true ∧
    (validationLoop
        (fun _ => ⟨true, true, bl, ⟨false, bl, LogFile.readable content, rl⟩⟩)
        N cfg).attempted = [cfg] := by
  have hto : analyzeTestOutput (LogFile.readable content) = emptyAnalysis := by
    simp [analyzeTestOutput, h₁, h₂, applyTestScan, h₃, h₄, h₅, emptyAnalysis]
  have hlogs : analyzeLogs ⟨false, bl, LogFile.readable content, rl⟩ = emptyAnalysis := by
    simp [analyzeLogs, LogFile.present, hto, emptyAnalysis]
  have hstep := loopGo_success_step
    (fun _ => ⟨true, true, bl, ⟨false, bl, LogFile.readable content, rl⟩⟩)
    N 1 cfg [] hN rfl rfl (by rw [hlogs]; rfl)
  exact ⟨by rw [hto]; rfl, by rw [hlogs]; rfl, hstep.1, hstep.2.2⟩

/-- Claim C1, witness for the amended theorem at a concrete marker-free
log. -/
theorem c1_unknown_test_log_witness :
    (analyzeTestOutput (LogFile.readable "all clear")).error_type = none ∧
    (analyzeLogs ⟨false, LogFile.missing, LogFile.readable "all clear",
        LogFile.missing⟩).error_type = none ∧
    (validationLoop
        (fun _ => ⟨true, true, LogFile.missing,
          ⟨false, LogFile.missing, LogFile.readable "all clear", LogFile.missing⟩⟩)
        5 cfgBase).success = true ∧
    (validationLoop
        (fun _ => ⟨true, true, LogFile.missing,
          ⟨false, LogFile.missing, LogFile.readable "all clear", LogFile.missing⟩⟩)
        5 cfgBase).attempted = [cfgBase] :=
  c1_unknown_test_log "all clear" LogFile.missing LogFile.missing cfgBase 5
    (by omega) (by decide) (by decide) (by decide) (by decide) (by decide)

/-! ### Claim C2 -/

/-- Claim C2, counterexample.  The claim says every missing or unreadable
artifact yields `log_not_found` / `log_read_error`; but `analyze_run_log`
on a missing artifact returns `error_type = None`, not a terminal
classification. -/
theorem c2_counterexample :
    ¬ ((analyzeRunLog LogFile.missing).error_type = some "log_not_found" ∨
       (analyzeRunLog LogFile.missing).error_type = some "log_read_error") := by decide

/-- Claim C2, amended.  The build-log and test-output analyzers return
`log_not_found` (missing) or `log_read_error` (unreadable) with no
suggested fix, and the run-log analyzer returns `log_read_error` with no
fix for an unreadable artifact; but the run-log analyzer returns
`error_type = None` for a missing artifact, and the consolidated analysis
skips absent artifacts entirely, so a log directory whose test output and
run log are both absent is classified as success. -/
theorem c2_artifact_errors (e : String) (bl : LogFile) :
    ((analyzeBuildLog LogFile.missing).error_type = some "log_not_found" ∧
      (analyzeBuildLog LogFile.missing).suggested_fix = none) ∧
    ((analyzeBuildLog (LogFile.unreadable e)).error_type = some "log_read_error" ∧
      (analyzeBuildLog (LogFile.unreadable e)).suggested_fix = none) ∧
    ((analyzeTestOutput LogFile.missing).error_type = some "log_not_found" ∧
      (analyzeTestOutput LogFile.missing).suggested_fix = none) ∧
    ((analyzeTestOutput (LogFile.unreadable e)).error_type = some "log_read_error" ∧
      (analyzeTestOutput (LogFile.unreadable e)).suggested_fix = none) ∧
    ((analyzeRunLog (LogFile.unreadable e)).error_type = some "log_read_error" ∧
      (analyzeRunLog (LogFile.unreadable e)).suggested_fix = none) ∧
    (analyzeRunLog LogFile.missing).error_type = none ∧
    (analyzeLogs ⟨false, bl, LogFile.missing, LogFile.missing⟩).error_type = none := by
  simp [analyzeBuildLog, analyzeTestOutput, analyzeRunLog, analyzeLogs,
    LogFile.present, emptyAnalysis]

/-! ### Claim C3 -/

/-- Claim C3, counterexample.  With a budget of 1 and a build failure whose
analysis suggests a fix, the only attempted configuration is the initial
one, but the loop returns the configuration with that fix already applied —
a directive is applied after the final attempt. -/
theorem c3_counterexample :
    (validationLoop envNodeFail 1 cfgBase).attempted = [cfgBase] ∧
    (validationLoop envNodeFail 1 cfgBase).config ≠ cfgBase := by decide

/-- Claim C3, amended.  The loop returns the configuration as mutated by
every applied fix: on a SUCCESS or no-fix stop this equals the
configuration persisted for and attempted in the final build/run attempt,
but when the iteration budget is exhausted it equals the final attempted
configuration with the final iteration's suggested fix additionally
applied. -/
theorem c3_final_config (env : Nat → IterWorld) (N : Nat) (cfg : ConfigModel)
    (hN : 1 ≤ N) :
    (((validationLoop env N cfg).outcome = Outcome.success ∨
        (validationLoop env N cfg).outcome = Outcome.noFix) →
      (validationLoop env N cfg).attempted.getLast? =
        some (validationLoop env N cfg).config) ∧
    ((validationLoop env N cfg).outcome = Outcome.exhausted →
      ∃ last, (validationLoop env N cfg).attempted.getLast? = some last ∧
        (validationLoop env N cfg).config =
          updateFromFix last (iterAnalysis (env N)).suggested_fix) := by
  constructor
  · exact loopGo_last_attempt env N 1 cfg []
  · intro hout
    have h := loopGo_exhausted_char env N 1 cfg [] hN hout
    have hidx : 1 + N - 1 = N := by omega
    rw [hidx] at h
    exact h

/-- Claim C3, witness for the amended theorem on a concrete exhausted
run. -/
theorem c3_final_config_witness :
    (validationLoop envNodeFail 1 cfgBase).outcome = Outcome.exhausted ∧
    ∃ last, (validationLoop envNodeFail 1 cfgBase).attempted.getLast? = some last ∧
      (validationLoop envNodeFail 1 cfgBase).config =
        updateFromFix last (iterAnalysis (envNodeFail 1)).suggested_fix :=
  ⟨by decide, (c3_final_config envNodeFail 1 cfgBase (by omega)).2 (by decide)⟩

/-! ### Claim C4 -/

/-- Claim C4, counterexample.  The claim says a `change_version` directive
sets `docker_specs[field] = value` for every field name, but the code only
handles the fields `node_version` and `pnpm_version`: targeting any other
field (here `timeout`) leaves `docker_specs` without the entry. -/
theorem c4_counterexample :
    dictLookup (updateFromFix cfgBase
        (some ⟨"change_version", some "timeout", PyVal.pstr "600", "r"⟩)).docker_specs
      "timeout" ≠ some (PyVal.pstr "600") := by decide

/-- Claim C4, amended.  Applying a `change_version` directive with field
`node_version` or `pnpm_version` sets `docker_specs[field] = value`
(overwriting any previous value), and applying it twice yields the same
model as applying it once; a `change_version` directive naming any other
field is a no-op. -/
theorem c4_change_version (m : ConfigModel) (f : String) (v : PyVal) (rsn : String) :
    ((f = "node_version" ∨ f = "pnpm_version") →
      dictLookup (updateFromFix m
          (some ⟨"change_version", some f, v, rsn⟩)).docker_specs f = some v ∧
      updateFromFix (updateFromFix m (some ⟨"change_version", some f, v, rsn⟩))
          (some ⟨"change_version", some f, v, rsn⟩) =
        updateFromFix m (some ⟨"change_version", some f, v, rsn⟩)) ∧
    (f ≠ "node_version" → f ≠ "pnpm_version" →
      updateFromFix m (some ⟨"change_version", some f, v, rsn⟩) = m) := by
  constructor
  · rintro (rfl | rfl) <;>
      exact ⟨by simp [updateFromFix, dictLookup_dictInsert],
             by simp [updateFromFix, dictInsert_idem]⟩
  · intro h₁ h₂
    simp [updateFromFix, h₁, h₂]

/-- Claim C4, witness for the amended theorem at the `node_version`
field. -/
theorem c4_change_version_witness :
    dictLookup (updateFromFix cfgBase
        (some ⟨"change_version", some "node_version", PyVal.pstr "18", "r"⟩)).docker_specs
      "node_version" = some (PyVal.pstr "18") ∧
    updateFromFix (updateFromFix cfgBase
        (some ⟨"change_version", some "node_version", PyVal.pstr "18", "r"⟩))
        (some ⟨"change_version", some "node_version", PyVal.pstr "18", "r"⟩) =
      updateFromFix cfgBase
        (some ⟨"change_version", some "node_version", PyVal.pstr "18", "r"⟩) :=
  (c4_change_version cfgBase "node_version" (PyVal.pstr "18") "r").1 (Or.inl rfl)

/-! ### Claim C5 -/

/-- Claim C5, counterexample.  The claim says `add_npm_flag` appends the
flag to install commands containing the *configured* package manager's
install invocation (npm, yarn or pnpm); the code hard-codes `npm install`,
so for a yarn configuration whose install command is `yarn install` the
flag is not appended, while the spec-side application would append it. -/
theorem c5_counterexample :
    (updateFromFix cfgYarn
        (some ⟨"add_npm_flag", some "install", PyVal.pstr "--legacy-peer-deps", "r"⟩)).install
      = ["yarn install"] ∧
    specNpmFlagApply "yarn" cfgYarn.install "--legacy-peer-deps"
      = ["yarn install --legacy-peer-deps"] ∧
    (updateFromFix cfgYarn
        (some ⟨"add_npm_flag", some "install", PyVal.pstr "--legacy-peer-deps", "r"⟩)).install
      ≠ specNpmFlagApply "yarn" cfgYarn.install "--legacy-peer-deps" := by decide

/-- Claim C5, amended.  Applying an `add_npm_flag` directive with flag `v`
preserves the number of install commands and rewrites each command
independently: a command containing the literal `npm install` (regardless
of the configured package manager) and not already containing `v` gets
`v` appended after a space; every other command is left unchanged. -/
theorem c5_flag_application (m : ConfigModel) (fld : Option String) (v rsn : String) :
    (updateFromFix m (some ⟨"add_npm_flag", fld, PyVal.pstr v, rsn⟩)).install.length
      = m.install.length ∧
    ∀ i (h : i < m.install.length)
        (h₂ : i < (updateFromFix m (some ⟨"add_npm_flag", fld, PyVal.pstr v, rsn⟩)).install.length),
      (updateFromFix m (some ⟨"add_npm_flag", fld, PyVal.pstr v, rsn⟩)).install.get ⟨i, h₂⟩ =
        if (strContains (m.install.get ⟨i, h⟩) "npm install" &&
            !(strContains (m.install.get ⟨i, h⟩) v)) = true then
          m.install.get ⟨i, h⟩ ++ " " ++ v
        else m.install.get ⟨i, h⟩ := by
  have hmap : (updateFromFix m (some ⟨"add_npm_flag", fld, PyVal.pstr v, rsn⟩)).install =
      m.install.map (fun cmd =>
        if strContains cmd "npm install" && !(strContains cmd v) then cmd ++ " " ++ v
        else cmd) := by
    simp [updateFromFix]
  constructor
  · rw [hmap, List.length_map]
  · intro i h h₂
    simp only [List.get_eq_getElem, hmap, List.getElem_map]

/-- Claim C5, witness: the flag is appended to the npm install command and
the unrelated command is untouched. -/
theorem c5_flag_application_witness :
    (updateFromFix cfgTwo
        (some ⟨"add_npm_flag", some "install", PyVal.pstr "--legacy-peer-deps", "r"⟩)).install.length
      = cfgTwo.install.length ∧
    (updateFromFix cfgTwo
        (some ⟨"add_npm_flag", some "install", PyVal.pstr "--legacy-peer-deps", "r"⟩)).install.get
        ⟨0, by decide⟩ = "npm install --legacy-peer-deps" ∧
    (updateFromFix cfgTwo
        (some ⟨"add_npm_flag", some "install", PyVal.pstr "--legacy-peer-deps", "r"⟩)).install.get
        ⟨1, by decide⟩ = "echo hi" := by
  obtain ⟨hl, he⟩ := c5_flag_application cfgTwo (some "install") "--legacy-peer-deps" "r"
  refine ⟨hl, ?_, ?_⟩
  · exact (he 0 (by decide) (by decide)).trans (by decide)
  · exact (he 1 (by decide) (by decide)).trans (by decide)

/-! ### Claim C6 -/

/-- Claim C6 (confirmed).  For a build-phase log whose content lacks the
build success marker, whose missing-package signature search captures
`libfoo-dev`, and which also contains the generic build-failure marker,
the analyzer classifies it `missing_package` — never the generic
classification, since the generic marker is consulted only when no pattern
matched — with the suggested fix
`remove_apt_package / apt_pkgs / libfoo-dev`. -/
theorem c6_missing_package_precedence (content : String)
    (h₁ : strContains content "Image built successfully" = false)
    (h₂ : missingPackageCapture content = some "libfoo-dev")
    (h₃ : strContains content "Error building image" = true) :
    analyzeBuildLog (LogFile.readable content) =
      ⟨some "missing_package", "Missing system package: libfoo-dev",
        some ⟨"remove_apt_package", some "apt_pkgs", PyVal.pstr "libfoo-dev",
              "Package not found in apt repositories"⟩⟩ := by
  simp [analyzeBuildLog, h₁, buildErrorScan, h₂]

/-- Claim C6, witness at the concrete Scenario A log. -/
theorem c6_missing_package_precedence_witness :
    strContains c6content "Image built successfully" = false ∧
    strContains c6content "Error building image" = true ∧
    analyzeBuildLog (LogFile.readable c6content) =
      ⟨some "missing_package", "Missing system package: libfoo-dev",
        some ⟨"remove_apt_package", some "apt_pkgs", PyVal.pstr "libfoo-dev",
              "Package not found in apt repositories"⟩⟩ :=
  ⟨by decide, by decide,
   c6_missing_package_precedence c6content (by decide) (by decide) (by decide)⟩

/-! ### Claim C7 -/

/-- Claim C7 (confirmed).  For any environment — including one suggesting
the same fix on consecutive iterations — and any budget N, the loop makes
at most N build attempts; if no iteration's consolidated analysis yields
`error_type = None` the run ends unsuccessfully; and any iteration with a
successful write, a successful build, and a consolidated analysis of
`error_type = None` ends the loop immediately with SUCCESS, that iteration
being the only further build attempt. -/
theorem c7_loop_termination (env : Nat → IterWorld) (N : Nat) (cfg : ConfigModel) :
    (validationLoop env N cfg).attempted.length ≤ N ∧
    ((∀ i, (analyzeLogs (env i).logDir).error_type ≠ none) →
      (validationLoop env N cfg).success = false) ∧
    (∀ rem i c logs, 1 ≤ rem → (env i).writeOk = true → (env i).buildOk = true →
      (analyzeLogs (env i).logDir).error_type = none →
      (loopGo env rem i c logs).success = true ∧
      (loopGo env rem i c logs).config = c ∧
      (loopGo env rem i c logs).attempted = [c]) :=
  ⟨loopGo_attempted_length env N 1 cfg [],
   fun h => loopGo_no_success env h N 1 cfg [],
   fun rem i c logs hrem hw hb he => loopGo_success_step env rem i c logs hrem hw hb he⟩

/-- Claim C7, witness: an oscillating environment (the same display-error
fix suggested every iteration) exhausts a budget of 2 without success, and
a clean environment succeeds on iteration 1 of a budget of 5. -/
theorem c7_loop_termination_witness :
    (validationLoop envOscillate 2 cfgBase).attempted.length ≤ 2 ∧
    (validationLoop envOscillate 2 cfgBase).success = false ∧
    (validationLoop envSuccess 5 cfgBase).success = true ∧
    (validationLoop envSuccess 5 cfgBase).config = cfgBase :=
  ⟨(c7_loop_termination envOscillate 2 cfgBase).1,
   (c7_loop_termination envOscillate 2 cfgBase).2.1
     (fun _ => (by decide : (analyzeLogs dirDisplay).error_type ≠ none)),
   ((c7_loop_termination envSuccess 5 cfgBase).2.2 5 1 cfgBase [] (by omega)
      (by decide) (by decide) (by decide)).1,
   ((c7_loop_termination envSuccess 5 cfgBase).2.2 5 1 cfgBase [] (by omega)
      (by decide) (by decide) (by decide)).2.1⟩

/-! ### Claim C8 -/

/-- Claim C8, counterexample.  The claim says generation falls back to the
configured package manager's canonical invocation when the descriptor
supplies no install command; for a pnpm descriptor the canonical invocation
(per `get_install_command`) is `pnpm install`, but generation falls back to
`npm install`. -/
theorem c8_counterexample :
    generateInstallCommands rmPnpm = ["npm install"] ∧
    getInstallCommand rmPnpm.package_manager [] = ["pnpm install"] ∧
    generateInstallCommands rmPnpm ≠ getInstallCommand rmPnpm.package_manager [] := by
  decide

/-- Claim C8, amended.  The `install` field is never empty: generation
always produces exactly one install command (the descriptor's first
install command, or the literal `npm install` when the descriptor supplies
none, regardless of the configured package manager), and applying a
directive of any fix kind to a model with a non-empty install list never
leaves it empty. -/
theorem c8_install_nonempty :
    (∀ rm : RepoModel, generateInstallCommands rm ≠ []) ∧
    (∀ (rm : RepoModel) (version : String), (generateConfig rm version).install ≠ []) ∧
    (∀ (m : ConfigModel) (fix : Option FixD),
      m.install ≠ [] → (updateFromFix m fix).install ≠ []) := by
  have hgen : ∀ rm : RepoModel, generateInstallCommands rm ≠ [] := by
    intro rm
    simp only [generateInstallCommands]
    split <;> simp
  refine ⟨hgen, fun rm version => hgen rm, ?_⟩
  intro m fix h
  cases fix with
  | none => simpa [updateFromFix] using h
  | some f =>
    simp only [updateFromFix]
    repeat' split
    all_goals simp_all

/-- Claim C8, witness for the directive part of the amended theorem. -/
theorem c8_install_nonempty_witness :
    (updateFromFix cfgBase
        (some ⟨"remove_apt_package", some "apt_pkgs", PyVal.pstr "git", "r"⟩)).install ≠ [] :=
  c8_install_nonempty.2.2 cfgBase
    (some ⟨"remove_apt_package", some "apt_pkgs", PyVal.pstr "git", "r"⟩) (by decide)

/-! ### Claim C9 -/

/-- Claim C9 (confirmed).  Applying `add_apt_package(X)` twice yields the
same model (hence the same `apt_pkgs`) as applying it once, and applying
`remove_apt_package(X)` to a model where X is absent from `apt_pkgs` is a
no-op. -/
theorem c9_apt_idempotence (m : ConfigModel) (fld : Option String) (X rsn : String) :
    updateFromFix (updateFromFix m (some ⟨"add_apt_package", fld, PyVal.pstr X, rsn⟩))
        (some ⟨"add_apt_package", fld, PyVal.pstr X, rsn⟩) =
      updateFromFix m (some ⟨"add_apt_package", fld, PyVal.pstr X, rsn⟩) ∧
    (X ∉ m.apt_pkgs →
      updateFromFix m (some ⟨"remove_apt_package", fld, PyVal.pstr X, rsn⟩) = m) := by
  constructor
  · by_cases h : X ∈ m.apt_pkgs
    · simp [updateFromFix, h]
    · simp [updateFromFix, h]
  · intro h
    simp [updateFromFix, h]

/-- Claim C9, witness: adding `curl` twice equals adding it once, and
removing the absent `curl` is a no-op. -/
theorem c9_apt_idempotence_witness :
    updateFromFix (updateFromFix cfgBase
        (some ⟨"add_apt_package", some "apt_pkgs", PyVal.pstr "curl", "r"⟩))
        (some ⟨"add_apt_package", some "apt_pkgs", PyVal.pstr "curl", "r"⟩) =
      updateFromFix cfgBase
        (some ⟨"add_apt_package", some "apt_pkgs", PyVal.pstr "curl", "r"⟩) ∧
    updateFromFix cfgBase
        (some ⟨"remove_apt_package", some "apt_pkgs", PyVal.pstr "curl", "r"⟩) = cfgBase :=
  ⟨(c9_apt_idempotence cfgBase (some "apt_pkgs") "curl" "r").1,
   (c9_apt_idempotence cfgBase (some "apt_pkgs") "curl" "r").2 (by decide)⟩

/-! ### Claim C10 -/

/-- Claim C10 (confirmed).  Applying a directive whose fix kind is `retry`
or `increase_timeout` — kinds the analyzer emits for a build-phase network
timeout and for a run-log test timeout respectively — matches no branch of
`update_from_fix` and so leaves the whole configuration model (every field)
unchanged, with no error raised: the following iteration rebuilds with an
identical configuration. -/
theorem c10_inert_directives :
    (∀ (m : ConfigModel) (fld : Option String) (v : PyVal) (rsn : String),
      updateFromFix m (some ⟨"retry", fld, v, rsn⟩) = m) ∧
    (∀ (m : ConfigModel) (fld : Option String) (v : PyVal) (rsn : String),
      updateFromFix m (some ⟨"increase_timeout", fld, v, rsn⟩) = m) ∧
    (analyzeBuildLog (LogFile.readable "connection ETIMEDOUT")).suggested_fix
      = some retryFix ∧
    (analyzeRunLog (LogFile.readable "Timeout error")).suggested_fix
      = some increaseTimeoutFix := by
  refine ⟨?_, ?_, by decide, by decide⟩ <;>
    exact fun m fld v rsn => by simp [updateFromFix]
